import Mathlib

/-!
Shallow embedding of the tau realtime audio engine (src/tau/tau.c) for
checking the natural-language specification against the code.

Float values of the C program are modelled as real numbers; machine
integers as `Int`/`Nat`; atomics as plain fields (each command handler is
modelled as a pure state transformer, which matches the per-datagram
sequential processing of the control thread).  The external audio-file
decoder (miniaudio) is modelled by an oracle `DecodeResult` describing the
outcome of the decode pipeline for the file named in a LOAD command.
-/

-- ---------- small utils (tau.c lines 50-51) ----------

/-- clampf from tau.c: `x<lo?lo:(x>hi?hi:x)`. -/
noncomputable def clampf (x lo hi : ℝ) : ℝ :=
  if x < lo then lo else if hi < x then hi else x

/-- clampi from tau.c: `v<lo?lo:(v>hi?hi:v)`. -/
def clampi (v lo hi : Int) : Int :=
  if v < lo then lo else if hi < v then hi else v

/-- TWO_PI constant of tau.c (the source holds the float approximation of 2π). -/
noncomputable def TWO_PI : ℝ := 2 * Real.pi

-- ---------- State Variable Filter (tau.c lines 53-102) ----------

/-- SVF struct of tau.c.  Filter type is kept as the C int
(0 = F_OFF, 1 = F_LP, 2 = F_HP, 3 = F_BP). -/
structure SVF where
  type : Int
  cutoff : ℝ
  q : ℝ
  ic1eq : ℝ
  ic2eq : ℝ
  g : ℝ
  k : ℝ
  sr : ℝ
  prev_cutoff : ℝ
  prev_q : ℝ

/-- svf_init from tau.c. -/
noncomputable def svf_init (sr : ℝ) : SVF :=
  { type := 0, cutoff := 1000, q := 0.7071, ic1eq := 0, ic2eq := 0,
    g := 0, k := 0, sr := sr, prev_cutoff := -1, prev_q := -1 }

/-- svf_update_coeffs from tau.c: recomputes `g`, `k` only when the cutoff
or the (read-side clamped) Q changed since the previous call. -/
noncomputable def svf_update_coeffs (f : SVF) : SVF :=
  let cutoff := f.cutoff
  let q := clampf f.q 0.1 20
  if cutoff ≠ f.prev_cutoff ∨ q ≠ f.prev_q then
    { f with g := Real.tan (Real.pi * (cutoff / (f.sr * 0.5))),
             k := 1 / q,
             prev_cutoff := cutoff, prev_q := q }
  else f

/-- svf_process from tau.c: returns the updated filter state and the output
sample.  For type F_OFF the input is returned before any state update. -/
noncomputable def svf_process (f : SVF) (x : ℝ) : SVF × ℝ :=
  let ty := f.type
  if ty = 0 then (f, x)
  else
    let f := svf_update_coeffs f
    let g := f.g
    let k := f.k
    let v0 := x
    let v1 := (f.ic1eq + g * (v0 - f.ic2eq)) / (1 + g * (g + k))
    let v2 := f.ic2eq + g * v1
    let f' := { f with ic1eq := 2 * v1 - f.ic1eq, ic2eq := 2 * v2 - f.ic2eq }
    let out := if ty = 1 then v2
               else if ty = 2 then v0 - k * v1 - v2
               else if ty = 3 then v1
               else v0
    (f', out)

-- ---------- Mixer Channel (tau.c lines 104-125) ----------

/-- Channel struct of tau.c. -/
structure Channel where
  gain : ℝ
  pan : ℝ
  filt : SVF

/-- channel_init from tau.c. -/
noncomputable def channel_init (sr : ℝ) : Channel :=
  { gain := 1, pan := 0, filt := svf_init sr }

/-- channel_stereo from tau.c: filters the mono input, scales by gain, and
adds an equal-power-panned contribution to the running L/R sums.  The pan
value is clamped to [-1,1] at each call before use. -/
noncomputable def channel_stereo (c : Channel) (mono L R : ℝ) : Channel × ℝ × ℝ :=
  let g := c.gain
  let p := clampf c.pan (-1) 1
  let fm := svf_process c.filt mono
  let m := fm.2 * g
  let lgain := Real.sqrt (0.5 * (1 - p))
  let rgain := Real.sqrt (0.5 * (1 + p))
  ({ c with filt := fm.1 }, L + m * lgain, R + m * rgain)

/-- Modelled from the spec (§4.2, second definition for refinement
comparison): the Mixer Channel render formula exactly as the spec words it,
with left/right gains computed from the published pan value itself (no
clamp). -/
noncomputable def channel_stereo_spec (c : Channel) (mono L R : ℝ) : Channel × ℝ × ℝ :=
  let fm := svf_process c.filt mono
  let m := fm.2 * c.gain
  ({ c with filt := fm.1 },
   L + m * Real.sqrt (0.5 * (1 - c.pan)),
   R + m * Real.sqrt (0.5 * (1 + c.pan)))

-- ---------- Sample Slot (tau.c lines 127-212) ----------

/-- SampleSlot struct of tau.c.  The float* data pointer is an
`Option (List ℝ)` (`none` = NULL); `length` is the separate length field. -/
structure SampleSlot where
  assignedCh : Int
  loaded : Bool
  playing : Bool
  loop : Bool
  gain : ℝ
  data : Option (List ℝ)
  length : Nat
  pos : Nat
  haveDecoder : Bool

/-- slot_init from tau.c (memset zero, then the explicit stores). -/
noncomputable def slot_init : SampleSlot :=
  { assignedCh := 0, loaded := false, playing := false, loop := false,
    gain := 1, data := none, length := 0, pos := 0, haveDecoder := false }

/-- slot_free from tau.c: frees the buffer, drops the decoder, clears
loaded and playing.  Note that `length` and `pos` are left as they are. -/
def slot_free (s : SampleSlot) : SampleSlot :=
  { s with data := none, haveDecoder := false, loaded := false, playing := false }

/-- Outcome of the external decoder pipeline used by slot_load_path:
init of the decoder can fail (C returns -1), querying the length can fail
(C returns -2), or it succeeds with `ch` output channels and the list of
frames actually read (each frame holding `ch` channel samples).  Allocation
failures (codes -3 and -4) are not modelled. -/
inductive DecodeResult where
  | initFail : DecodeResult
  | lengthFail : DecodeResult
  | ok (ch : Nat) (frames : List (List ℝ)) : DecodeResult

/-- slot_load_path from tau.c: frees the slot first, then runs the decode
pipeline; on success stores the mono downmix (per-frame channel average),
sets `pos := 0` and publishes `loaded := true` only after the buffer and
length are final.  Returns the updated slot and the C return code. -/
noncomputable def slot_load_path (s : SampleSlot) (dec : DecodeResult) : SampleSlot × Int :=
  let s0 := slot_free s
  match dec with
  | .initFail => (s0, -1)
  | .lengthFail => (slot_free { s0 with haveDecoder := true }, -2)
  | .ok ch frames =>
      let mono := frames.map (fun fr => fr.sum / (ch : ℝ))
      ({ s0 with haveDecoder := true, length := frames.length,
                 data := some mono, pos := 0, loaded := true }, 0)

/-- slot_tick from tau.c: silent unless playing, loaded and non-NULL data;
at end of data either wraps (loop) and plays this tick, or stops; otherwise
plays `data[pos] * gain` and advances the cursor. -/
noncomputable def slot_tick (s : SampleSlot) : SampleSlot × ℝ :=
  if !s.playing || !s.loaded || s.data.isNone then (s, 0)
  else
    let buf := s.data.getD []
    let pos := s.pos
    if s.length ≤ pos then
      if s.loop then
        ({ s with pos := 1 }, buf.getD 0 0 * s.gain)
      else
        ({ s with playing := false, pos := 0 }, 0)
    else
      ({ s with pos := pos + 1 }, buf.getD pos 0 * s.gain)

/-- State after one slot_tick (used to iterate ticks). -/
noncomputable def slotStep (s : SampleSlot) : SampleSlot := (slot_tick s).1

-- ---------- Synth Voice (tau.c lines 214-268) ----------

/-- Voice struct of tau.c (wave kept as the C int: 0 = W_SINE, 1 = W_PULSE). -/
structure Voice where
  onFlag : Bool  -- C field name: on
  wave : Int
  freq : ℝ
  gain : ℝ
  assignedCh : Int
  tauA : ℝ
  tauB : ℝ
  dutyBias : ℝ
  spikes : Int
  phase : ℝ
  sr : ℝ
  Astate : ℝ
  Bstate : ℝ

/-- voice_init from tau.c. -/
noncomputable def voice_init (sr : ℝ) : Voice :=
  { onFlag := false, wave := 0, freq := 220, gain := 0.2, assignedCh := 0,
    tauA := 0.005, tauB := 0.020, dutyBias := 0.5, spikes := 0,
    phase := 0, sr := sr, Astate := 0, Bstate := 0 }

/-- Per-tick decay factor of the A register: `expf(-1/(ta*sr))` with
`ta = fmaxf(1e-4, tauA)` (tau.c lines 253-256). -/
noncomputable def voiceDecayA (v : Voice) : ℝ :=
  Real.exp (-1 / (max 0.0001 v.tauA * v.sr))

/-- Per-tick decay factor of the B register: `expf(-1/(tb*sr))` with
`tb = fmaxf(1e-4, tauB)` (tau.c lines 254-257). -/
noncomputable def voiceDecayB (v : Voice) : ℝ :=
  Real.exp (-1 / (max 0.0001 v.tauB * v.sr))

/-- voice_tick from tau.c: returns 0 immediately when off (spike counter
untouched); otherwise drains the spike counter (take-and-zero), adds it to
both decay registers when positive, decays both registers, computes the
duty cycle, advances the phase, and produces the sine or pulse sample. -/
noncomputable def voice_tick (v : Voice) : Voice × ℝ :=
  if !v.onFlag then (v, 0)
  else
    let s := v.spikes
    let A0 := if 0 < s then v.Astate + (s : ℝ) else v.Astate
    let B0 := if 0 < s then v.Bstate + (s : ℝ) else v.Bstate
    let f := max 1 v.freq
    let A1 := A0 * voiceDecayA v
    let B1 := B0 * voiceDecayB v
    let k := A1 - B1
    let duty := clampf (v.dutyBias + 0.25 * k) 0.01 0.99
    let ph0 := v.phase + f / v.sr
    let ph := if 1 ≤ ph0 then ph0 - 1 else ph0
    let y := if v.wave = 0 then Real.sin (TWO_PI * ph)
             else if ph < duty then 1 else -1
    ({ v with spikes := 0, Astate := A1, Bstate := B1, phase := ph }, y * v.gain)

/-- The duty cycle that voice_tick computes on a tick of an on voice,
as a function of the pre-tick state (same lines of tau.c as voice_tick). -/
noncomputable def voice_tick_duty (v : Voice) : ℝ :=
  let s := v.spikes
  let A0 := if 0 < s then v.Astate + (s : ℝ) else v.Astate
  let B0 := if 0 < s then v.Bstate + (s : ℝ) else v.Bstate
  let A1 := A0 * voiceDecayA v
  let B1 := B0 * voiceDecayB v
  clampf (v.dutyBias + 0.25 * (A1 - B1)) 0.01 0.99

/-- State after one voice_tick (used to iterate ticks). -/
noncomputable def voiceStep (v : Voice) : Voice := (voice_tick v).1

-- ---------- Engine state (tau.c lines 270-285, 1029-1048) ----------

/-- Engine struct of tau.c, together with the server state the command
thread mutates (subscriber list, running flag).  `sr` is the engine sample
rate. -/
structure Engine where
  sr : ℝ
  masterGain : ℝ
  ch : Fin 4 → Channel
  slots : Fin 16 → SampleSlot
  voices : Fin 8 → Voice
  subs : List String
  running : Bool

/-- engine_init from tau.c (plus the empty server state of dgram_start). -/
noncomputable def engine_init (sr : ℝ) : Engine :=
  { sr := sr, masterGain := 0.8,
    ch := fun _ => channel_init sr,
    slots := fun _ => slot_init,
    voices := fun _ => voice_init sr,
    subs := [], running := true }

-- ---------- command parsing helpers ----------

/-- Whitespace set of the strtok calls in process_command (" \t\n"). -/
def isDelim (c : Char) : Bool := c = ' ' || c = '\t' || c = '\n'

/-- Tokenizer worker: splits a character list on the strtok delimiter set,
accumulating the current token reversed. -/
def tokenizeAux : List Char → List Char → List String
  | [], cur => if cur.isEmpty then [] else [String.mk cur.reverse]
  | c :: cs, cur =>
      if isDelim c then
        if cur.isEmpty then tokenizeAux cs []
        else String.mk cur.reverse :: tokenizeAux cs []
      else tokenizeAux cs (c :: cur)

/-- The tokenization loop of process_command (tau.c lines 413-420):
whitespace-splits the command and keeps at most 32 tokens. -/
def tokenize (s : String) : List String := (tokenizeAux s.data []).take 32

/-- ASCII digit test (decimal digits of the C number parsers). -/
def isDigitC (c : Char) : Bool := 48 ≤ c.toNat && c.toNat ≤ 57

/-- Digit-sequence value of the C number parsers (stops at the first
non-digit). -/
def digitsVal (cs : List Char) : Nat :=
  (cs.takeWhile isDigitC).foldl (fun a c => a * 10 + (c.toNat - 48)) 0

/-- Modelled from the C library: atoi on the token strings the server
receives (optional sign, leading digits, trailing junk ignored). -/
def atoi (s : String) : Int :=
  let cs := s.data.dropWhile (fun c => c = ' ' || c = '\t' || c = '\n' || c = '\r')
  match cs with
  | '-' :: rest => -(digitsVal rest : Int)
  | '+' :: rest => (digitsVal rest : Int)
  | _ => (digitsVal cs : Int)

/-- Splits a decimal literal into its integer-part digits and its
fraction digits. -/
def splitNumber (cs : List Char) : List Char × List Char :=
  let ip := cs.takeWhile isDigitC
  match cs.dropWhile isDigitC with
  | '.' :: fs => (ip, fs.takeWhile isDigitC)
  | _ => (ip, [])

/-- Signed numerator of a decimal literal: the digits of the integer part
and the fraction part read as one integer (so the literal's value is this
over 10 to the number of fraction digits). -/
def atofNum (s : String) : Int :=
  let signedVal : List Char → Int := fun cs =>
    (digitsVal (splitNumber cs).1 * 10 ^ (splitNumber cs).2.length
      + digitsVal (splitNumber cs).2 : Nat)
  match s.data.dropWhile (fun c => c = ' ' || c = '\t' || c = '\n' || c = '\r') with
  | '-' :: rest => -(signedVal rest)
  | '+' :: rest => signedVal rest
  | cs => signedVal cs

/-- Number of fraction digits of a decimal literal. -/
def atofFracLen (s : String) : Nat :=
  match s.data.dropWhile (fun c => c = ' ' || c = '\t' || c = '\n' || c = '\r') with
  | '-' :: rest => (splitNumber rest).2.length
  | '+' :: rest => (splitNumber rest).2.length
  | cs => (splitNumber cs).2.length

/-- Modelled from the C library: atof restricted to the plain decimal
literals used by the command protocol (optional sign, integer part,
optional fraction; exponent notation not modelled), as an exact real. -/
noncomputable def atof (s : String) : ℝ :=
  (atofNum s : ℝ) / 10 ^ atofFracLen s

/-- Channel index used after the `CH <n>` range check (`G.ch[ch-1]`).
Within the validated range 1..4 the mod is the identity. -/
def chIdx (n : Int) : Fin 4 := ⟨(n - 1).toNat % 4, Nat.mod_lt _ (by norm_num)⟩

/-- Slot index used after the `SAMPLE <n>` range check (`G.slots[si-1]`). -/
def slotIdx (n : Int) : Fin 16 := ⟨(n - 1).toNat % 16, Nat.mod_lt _ (by norm_num)⟩

/-- Voice index used after the `VOICE <n>` range check (`G.voices[vi-1]`). -/
def voiceIdx (n : Int) : Fin 8 := ⟨(n - 1).toNat % 8, Nat.mod_lt _ (by norm_num)⟩

-- ---------- replies and events ----------

/-- The `OK ...` reply lines of process_command, one constructor per
snprintf site, carrying the formatted numeric arguments. -/
inductive RespOk where
  | ready                                        -- "OK READY"
  | statusRunning                                -- "OK STATUS running"
  | subscribed                                   -- "OK Subscribed"
  | master (g : ℝ)                               -- "OK MASTER %.3f"
  | chGain (ch : Int) (g : ℝ)                    -- "OK CH %d GAIN %.3f"
  | chPan (ch : Int) (p : ℝ)                     -- "OK CH %d PAN %.3f"
  | chFilter (ch ty : Int) (cutoff q : ℝ)        -- "OK CH %d FILTER %d %.1f %.3f"
  | voiceOn (v : Int)                            -- "OK VOICE %d ON"
  | voiceOff (v : Int)                           -- "OK VOICE %d OFF"
  | voiceWave (v w : Int)                        -- "OK VOICE %d WAVE %d"
  | voiceFreq (v : Int) (f : ℝ)                  -- "OK VOICE %d FREQ %.2f"
  | voiceGain (v : Int) (g : ℝ)                  -- "OK VOICE %d GAIN %.3f"
  | voiceChan (v c : Int)                        -- "OK VOICE %d CHAN %d"
  | voiceSpike (v : Int)                         -- "OK VOICE %d SPIKE"
  | voiceTau (v : Int) (a b : ℝ)                 -- "OK VOICE %d TAU %.4f %.4f"
  | sampleLoaded (s : Int) (path : String)       -- "OK SAMPLE %d LOADED %s"
  | sampleTrig (s : Int)                         -- "OK SAMPLE %d TRIG"
  | sampleStop (s : Int)                         -- "OK SAMPLE %d STOP"
  | sampleGain (s : Int) (g : ℝ)                 -- "OK SAMPLE %d GAIN %.3f"
  | sampleChan (s c : Int)                       -- "OK SAMPLE %d CHAN %d"
  | sampleLoop (s l : Int)                       -- "OK SAMPLE %d LOOP %d"
  | sampleSeek (s : Int) (t : ℝ)                 -- "OK SAMPLE %d SEEK %.3f"
  | shuttingDown                                 -- "OK Shutting down"

/-- The `ERROR ...` reply lines of process_command, one constructor per
snprintf site. -/
inductive RespErr where
  | empty                                        -- "ERROR Empty command"
  | missingSocketPath                            -- "ERROR Missing socket path"
  | missingGainValueMaster                       -- "ERROR Missing gain value" (MASTER)
  | chUsage                                      -- "ERROR CH <n> <param> <value>"
  | invalidChannel (n : Int)                     -- "ERROR Invalid channel %d"
  | missingGainValueCh                           -- "ERROR Missing gain value" (CH GAIN)
  | missingPanValue                              -- "ERROR Missing pan value"
  | filterUsage                                  -- "ERROR FILTER <type> <cutoff> <q>"
  | unknownChParam (s : String)                  -- "ERROR Unknown CH param: %s"
  | voiceUsage                                   -- "ERROR VOICE <n> <cmd>"
  | invalidVoice (n : Int)                       -- "ERROR Invalid voice %d"
  | missingWave                                  -- "ERROR Missing wave value"
  | missingFreq                                  -- "ERROR Missing frequency"
  | missingVoiceGain                             -- "ERROR Missing gain"
  | missingVoiceChan                             -- "ERROR Missing channel"
  | tauUsage                                     -- "ERROR TAU <tau_a> <tau_b>"
  | unknownVoiceCmd (s : String)                 -- "ERROR Unknown VOICE cmd: %s"
  | sampleUsage                                  -- "ERROR SAMPLE <n> <cmd>"
  | invalidSlot (n : Int)                        -- "ERROR Invalid sample slot %d"
  | missingPath                                  -- "ERROR Missing path"
  | pathTooLong                                  -- "ERROR Path too long"
  | loadFailed (path : String) (code : Int)      -- "ERROR Failed to load: %s (code %d)"
  | sampleNotLoaded (s : Int)                    -- "ERROR Sample %d not loaded"
  | missingSampleGain                            -- "ERROR Missing gain"
  | missingSampleChan                            -- "ERROR Missing channel"
  | missingLoopValue                             -- "ERROR Missing loop value (0 or 1)"
  | missingSeekTime                              -- "ERROR Missing seek time"
  | unknownSampleCmd (s : String)                -- "ERROR Unknown SAMPLE cmd: %s"
  | unknownCommand (s : String)                  -- "ERROR Unknown command: %s"

/-- A reply datagram: every reply line of process_command starts with
either "OK" or "ERROR". -/
inductive Resp where
  | ok : RespOk → Resp
  | err : RespErr → Resp

/-- The `EVENT ...` broadcast lines of process_command, one constructor
per srv_broadcast call site. -/
inductive Event where
  | master (g : ℝ)                               -- "EVENT MASTER %.3f"
  | channelGain (ch : Int) (g : ℝ)               -- "EVENT CHANNEL %d GAIN %.3f"
  | channelPan (ch : Int) (p : ℝ)                -- "EVENT CHANNEL %d PAN %.3f"
  | voiceOn (v : Int)                            -- "EVENT VOICE %d ON"
  | voiceOff (v : Int)                           -- "EVENT VOICE %d OFF"
  | samplePlaying (s : Int)                      -- "EVENT SAMPLE %d PLAYING"

/-- Result of processing one datagram: updated state, the single reply
sent back to the issuer, and the events broadcast to the subscribers. -/
structure CmdResult where
  engine : Engine
  resp : Resp
  events : List Event

-- ---------- subscriber list (tau.c lines 346-402) ----------

/-- srv_add_subscriber from tau.c: refuses when the list is full (only a
stderr message, no reply change), deduplicates, otherwise appends.
The sockaddr path truncation of strncpy is not modelled. -/
def srv_add_subscriber (subs : List String) (path : String) : List String :=
  if 32 ≤ subs.length then subs
  else if path ∈ subs then subs
  else subs ++ [path]

/-- Delivery fan-out of srv_broadcast: each event produced by a command is
sent to every subscriber registered at that time (the lazy pruning of dead
endpoints is transport behavior and all sends are modelled as delivered). -/
def deliveries (subs : List String) (evs : List Event) : List (String × Event) :=
  evs.flatMap (fun e => subs.map (fun p => (p, e)))

-- ---------- command interpreter (tau.c lines 404-766) ----------

/-- SUBSCRIBE branch of process_command (tau.c lines 439-448).  Note that
the reply is "OK Subscribed" whether or not srv_add_subscriber actually
added the endpoint. -/
def cmdSUBSCRIBE (rest : List String) (st : Engine) : CmdResult :=
  match rest with
  | [] => ⟨st, .err .missingSocketPath, []⟩
  | p :: _ => ⟨{ st with subs := srv_add_subscriber st.subs p }, .ok .subscribed, []⟩

/-- MASTER branch of process_command (tau.c lines 450-465). -/
noncomputable def cmdMASTER (rest : List String) (st : Engine) : CmdResult :=
  match rest with
  | [] => ⟨st, .err .missingGainValueMaster, []⟩
  | g0 :: _ =>
      let gain := clampf (atof g0) 0 10
      ⟨{ st with masterGain := gain }, .ok (.master gain), [.master gain]⟩

/-- CH branch of process_command (tau.c lines 467-529). -/
noncomputable def cmdCH (rest : List String) (st : Engine) : CmdResult :=
  match rest with
  | t1 :: t2 :: rest2 =>
      let ch := atoi t1
      if ch < 1 ∨ 4 < ch then ⟨st, .err (.invalidChannel ch), []⟩
      else
        let i := chIdx ch
        let C := st.ch i
        if t2 = "GAIN" then
          match rest2 with
          | [] => ⟨st, .err .missingGainValueCh, []⟩
          | g0 :: _ =>
              let gain := clampf (atof g0) 0 10
              ⟨{ st with ch := Function.update st.ch i { C with gain := gain } },
               .ok (.chGain ch gain), [.channelGain ch gain]⟩
        else if t2 = "PAN" then
          match rest2 with
          | [] => ⟨st, .err .missingPanValue, []⟩
          | p0 :: _ =>
              let pan := clampf (atof p0) (-1) 1
              ⟨{ st with ch := Function.update st.ch i { C with pan := pan } },
               .ok (.chPan ch pan), [.channelPan ch pan]⟩
        else if t2 = "FILTER" then
          match rest2 with
          | a :: b :: c :: _ =>
              let ty := clampi (atoi a) 0 3
              let cutoff := max 20 (atof b)
              let q := max 0.1 (atof c)
              let C' := { C with filt := { C.filt with type := ty, cutoff := cutoff, q := q } }
              ⟨{ st with ch := Function.update st.ch i C' },
               .ok (.chFilter ch ty cutoff q), []⟩
          | _ => ⟨st, .err .filterUsage, []⟩
        else ⟨st, .err (.unknownChParam t2), []⟩
  | _ => ⟨st, .err .chUsage, []⟩

/-- VOICE branch of process_command (tau.c lines 531-629). -/
noncomputable def cmdVOICE (rest : List String) (st : Engine) : CmdResult :=
  match rest with
  | t1 :: t2 :: rest2 =>
      let vi := atoi t1
      if vi < 1 ∨ 8 < vi then ⟨st, .err (.invalidVoice vi), []⟩
      else
        let i := voiceIdx vi
        let V := st.voices i
        if t2 = "ON" then
          ⟨{ st with voices := Function.update st.voices i { V with onFlag := true } },
           .ok (.voiceOn vi), [.voiceOn vi]⟩
        else if t2 = "OFF" then
          ⟨{ st with voices := Function.update st.voices i { V with onFlag := false } },
           .ok (.voiceOff vi), [.voiceOff vi]⟩
        else if t2 = "WAVE" then
          match rest2 with
          | [] => ⟨st, .err .missingWave, []⟩
          | w0 :: _ =>
              let wave : Int := if atoi w0 ≠ 0 then 1 else 0
              ⟨{ st with voices := Function.update st.voices i { V with wave := wave } },
               .ok (.voiceWave vi wave), []⟩
        else if t2 = "FREQ" then
          match rest2 with
          | [] => ⟨st, .err .missingFreq, []⟩
          | f0 :: _ =>
              let freq := max 1 (atof f0)
              ⟨{ st with voices := Function.update st.voices i { V with freq := freq } },
               .ok (.voiceFreq vi freq), []⟩
        else if t2 = "GAIN" then
          match rest2 with
          | [] => ⟨st, .err .missingVoiceGain, []⟩
          | g0 :: _ =>
              let gain := clampf (atof g0) 0 2
              ⟨{ st with voices := Function.update st.voices i { V with gain := gain } },
               .ok (.voiceGain vi gain), []⟩
        else if t2 = "CHAN" then
          match rest2 with
          | [] => ⟨st, .err .missingVoiceChan, []⟩
          | c0 :: _ =>
              let c := clampi (atoi c0) 0 3
              ⟨{ st with voices := Function.update st.voices i { V with assignedCh := c } },
               .ok (.voiceChan vi c), []⟩
        else if t2 = "SPIKE" then
          ⟨{ st with voices := Function.update st.voices i { V with spikes := V.spikes + 1 } },
           .ok (.voiceSpike vi), []⟩
        else if t2 = "TAU" then
          match rest2 with
          | a :: b :: _ =>
              let ta := max 0.0001 (atof a)
              let tb := max 0.0001 (atof b)
              let V' := { V with tauA := ta, tauB := tb }
              ⟨{ st with voices := Function.update st.voices i V' },
               .ok (.voiceTau vi ta tb), []⟩
          | _ => ⟨st, .err .tauUsage, []⟩
        else ⟨st, .err (.unknownVoiceCmd t2), []⟩
  | _ => ⟨st, .err .voiceUsage, []⟩

/-- SAMPLE branch of process_command (tau.c lines 631-756).  The LOAD path
is the space-joined remaining tokens; the incremental bounds checks of the
C path reconstruction succeed exactly when the joined path fits in the
1024-byte buffer (length at most 1022). -/
noncomputable def cmdSAMPLE (rest : List String) (dec : DecodeResult) (st : Engine) : CmdResult :=
  match rest with
  | t1 :: t2 :: rest2 =>
      let si := atoi t1
      if si < 1 ∨ 16 < si then ⟨st, .err (.invalidSlot si), []⟩
      else
        let i := slotIdx si
        let S := st.slots i
        if t2 = "LOAD" then
          match rest2 with
          | [] => ⟨st, .err .missingPath, []⟩
          | _ =>
              let path := String.intercalate " " rest2
              if 1023 ≤ path.length then ⟨st, .err .pathTooLong, []⟩
              else
                let r := slot_load_path S dec
                if r.2 ≠ 0 then
                  ⟨{ st with slots := Function.update st.slots i r.1 },
                   .err (.loadFailed path r.2), []⟩
                else
                  ⟨{ st with slots := Function.update st.slots i r.1 },
                   .ok (.sampleLoaded si path), []⟩
        else if t2 = "TRIG" then
          if !S.loaded then ⟨st, .err (.sampleNotLoaded si), []⟩
          else
            ⟨{ st with slots := Function.update st.slots i { S with playing := true, pos := 0 } },
             .ok (.sampleTrig si), [.samplePlaying si]⟩
        else if t2 = "STOP" then
          ⟨{ st with slots := Function.update st.slots i { S with playing := false, pos := 0 } },
           .ok (.sampleStop si), []⟩
        else if t2 = "GAIN" then
          match rest2 with
          | [] => ⟨st, .err .missingSampleGain, []⟩
          | g0 :: _ =>
              let gain := clampf (atof g0) 0 10
              ⟨{ st with slots := Function.update st.slots i { S with gain := gain } },
               .ok (.sampleGain si gain), []⟩
        else if t2 = "CHAN" then
          match rest2 with
          | [] => ⟨st, .err .missingSampleChan, []⟩
          | c0 :: _ =>
              let c := clampi (atoi c0) 0 3
              ⟨{ st with slots := Function.update st.slots i { S with assignedCh := c } },
               .ok (.sampleChan si c), []⟩
        else if t2 = "LOOP" then
          match rest2 with
          | [] => ⟨st, .err .missingLoopValue, []⟩
          | l0 :: _ =>
              let l : Int := if atoi l0 ≠ 0 then 1 else 0
              ⟨{ st with slots := Function.update st.slots i { S with loop := l ≠ 0 } },
               .ok (.sampleLoop si l), []⟩
        else if t2 = "SEEK" then
          match rest2 with
          | [] => ⟨st, .err .missingSeekTime, []⟩
          | s0 :: _ =>
              if !S.loaded then ⟨st, .err (.sampleNotLoaded si), []⟩
              else
                let time := max 0 (atof s0)
                let target0 := ⌊time * st.sr⌋₊
                let target := if S.length ≤ target0 then
                                (if 0 < S.length then S.length - 1 else 0)
                              else target0
                ⟨{ st with slots := Function.update st.slots i { S with pos := target } },
                 .ok (.sampleSeek si ((target : ℝ) / st.sr)), []⟩
        else ⟨st, .err (.unknownSampleCmd t2), []⟩
  | _ => ⟨st, .err .sampleUsage, []⟩

/-- Token dispatch of process_command (tau.c lines 404-766). -/
noncomputable def process_tokens (tokens : List String) (dec : DecodeResult) (st : Engine) :
    CmdResult :=
  match tokens with
  | [] => ⟨st, .err .empty, []⟩
  | t0 :: rest =>
      if t0 = "INIT" then ⟨st, .ok .ready, []⟩
      else if t0 = "STATUS" then ⟨st, .ok .statusRunning, []⟩
      else if t0 = "SUBSCRIBE" then cmdSUBSCRIBE rest st
      else if t0 = "MASTER" then cmdMASTER rest st
      else if t0 = "CH" then cmdCH rest st
      else if t0 = "VOICE" then cmdVOICE rest st
      else if t0 = "SAMPLE" then cmdSAMPLE rest dec st
      else if t0 = "QUIT" then ⟨{ st with running := false }, .ok .shuttingDown, []⟩
      else ⟨st, .err (.unknownCommand t0), []⟩

/-- process_command from tau.c: tokenize then dispatch.  The decoder
oracle stands for the filesystem/decoder behavior for a LOAD command. -/
noncomputable def process_command (cmd : String) (dec : DecodeResult) (st : Engine) :
    CmdResult :=
  process_tokens (tokenize cmd) dec st

-- ---------- OSC mapped handler (tau.c lines 887-933) ----------

/-- osc_handle_mapped from tau.c, after the sscanf address split: writes
the raw float argument of a `/midi/mapped/<variant>/<semantic>` message
into the parameter named by `semantic`.  None of the writes clamp. -/
noncomputable def osc_handle_mapped (st : Engine) (semantic : String) (value : ℝ) : Engine :=
  if semantic = "VOLUME_1" then
    { st with ch := Function.update st.ch 0 { st.ch 0 with gain := value } }
  else if semantic = "VOLUME_2" then
    { st with ch := Function.update st.ch 1 { st.ch 1 with gain := value } }
  else if semantic = "VOLUME_3" then
    { st with ch := Function.update st.ch 2 { st.ch 2 with gain := value } }
  else if semantic = "VOLUME_4" then
    { st with ch := Function.update st.ch 3 { st.ch 3 with gain := value } }
  else if semantic = "PAN_1" then
    { st with ch := Function.update st.ch 0 { st.ch 0 with pan := value * 2 - 1 } }
  else if semantic = "PAN_2" then
    { st with ch := Function.update st.ch 1 { st.ch 1 with pan := value * 2 - 1 } }
  else if semantic = "FILTER_CUTOFF" then
    let c0 := { st.ch 0 with filt := { (st.ch 0).filt with cutoff := 100 + value * 7900 } }
    { st with ch := Function.update st.ch 0 c0 }
  else if semantic = "MASTER_VOLUME" then
    { st with masterGain := value }
  else st

-- ---------- spec-side definitions and concrete fixtures ----------

/-- The first integrator value (v1) computed by a non-bypassed svf_process
call, with the effective (possibly recomputed) coefficients. -/
noncomputable def svfV1 (f : SVF) (x : ℝ) : ℝ :=
  let fc := svf_update_coeffs f
  (fc.ic1eq + fc.g * (x - fc.ic2eq)) / (1 + fc.g * (fc.g + fc.k))

/-- The second integrator value (v2) computed by a non-bypassed svf_process
call. -/
noncomputable def svfV2 (f : SVF) (x : ℝ) : ℝ :=
  let fc := svf_update_coeffs f
  fc.ic2eq + fc.g * svfV1 f x

/-- The documented stored ranges for the mixer-channel parameters:
gain in [0,10], pan in [-1,1], cutoff at least 20 Hz, Q at least 0.1. -/
def chanParamsOK (c : Channel) : Prop :=
  0 ≤ c.gain ∧ c.gain ≤ 10 ∧ -1 ≤ c.pan ∧ c.pan ≤ 1 ∧
    20 ≤ c.filt.cutoff ∧ 0.1 ≤ c.filt.q

/-- A full subscriber list: 32 distinct endpoints. -/
def subsFull : List String :=
  ["e00", "e01", "e02", "e03", "e04", "e05", "e06", "e07",
   "e08", "e09", "e10", "e11", "e12", "e13", "e14", "e15",
   "e16", "e17", "e18", "e19", "e20", "e21", "e22", "e23",
   "e24", "e25", "e26", "e27", "e28", "e29", "e30", "e31"]

/-- A channel whose published pan is out of range (reachable through the
external protocol bridge, e.g. a PAN_1 message with value 2). -/
noncomputable def chPanBad : Channel :=
  { gain := 1, pan := 9, filt := svf_init 48000 }

/-- A voice at rest with one pending spike, decay time constants
tauA = 1 s and tauB = 2 s, at sample rate 2 Hz. -/
noncomputable def voiceSpiked : Voice :=
  { onFlag := true, wave := 0, freq := 1, gain := 1, assignedCh := 0,
    tauA := 1, tauB := 2, dutyBias := 1/2, spikes := 1, phase := 0,
    sr := 2, Astate := 0, Bstate := 0 }

/-- A slot holding a loaded, playing one-sample buffer. -/
noncomputable def slotLoadedEx : SampleSlot :=
  { slot_init with loaded := true, playing := true, data := some [1], length := 1 }

/-- Engine whose first sample slot is loaded and playing. -/
noncomputable def sampleLoadSt0 : Engine :=
  { engine_init 48000 with
    slots := Function.update (engine_init 48000).slots (slotIdx 1) slotLoadedEx }

/-- A loaded looping slot positioned at the end of its two-sample buffer. -/
noncomputable def slotLoopEnd : SampleSlot :=
  { assignedCh := 0, loaded := true, playing := true, loop := true,
    gain := 2, data := some [3, 4], length := 2, pos := 2, haveDecoder := true }

/-- A filter fixture whose cached coefficients are current (cutoff and
clamped Q equal the previous values), with g = 1 and k = 2. -/
noncomputable def svfFix (ty : Int) : SVF :=
  { type := ty, cutoff := 1000, q := 1, ic1eq := 0, ic2eq := 0,
    g := 1, k := 2, sr := 48000, prev_cutoff := 1000, prev_q := 1 }

-- ---------- helper lemmas ----------

theorem clampf_le (x lo hi : ℝ) (h : lo ≤ hi) : clampf x lo hi ≤ hi := by
  unfold clampf
  split_ifs with h1 h2
  · exact h
  · exact le_rfl
  · exact le_of_not_lt h2

theorem le_clampf (x lo hi : ℝ) (h : lo ≤ hi) : lo ≤ clampf x lo hi := by
  unfold clampf
  split_ifs with h1 h2
  · exact le_rfl
  · exact h
  · exact le_of_not_lt h1

theorem clampf_eq_self (x lo hi : ℝ) (h1 : lo ≤ x) (h2 : x ≤ hi) : clampf x lo hi = x := by
  unfold clampf
  rw [if_neg (not_lt.mpr h1), if_neg (not_lt.mpr h2)]

theorem abs_clampf_sub_le (b d lo hi : ℝ) (h1 : lo ≤ b) (h2 : b ≤ hi) :
    |clampf (b + d) lo hi - b| ≤ |d| := by
  unfold clampf
  split_ifs with hlt hgt
  · rw [abs_sub_comm, abs_of_nonneg (by linarith), abs_of_nonpos (by linarith)]
    linarith
  · rw [abs_of_nonneg (by linarith), abs_of_nonneg (by linarith)]
    linarith
  · simp


theorem slot_tick_not_playing (s : SampleSlot) (h : s.playing = false) :
    slot_tick s = (s, 0) := by
  simp [slot_tick, h]

/-- C4: slot_tick returns 0 (state unchanged) when the slot is not playing,
not loaded or has no buffer; at end of data it wraps to the start and still
produces the first buffer sample times gain on that tick when loop is set,
and otherwise stops (playing := false, cursor := 0), returns 0 and keeps
returning 0 on all subsequent ticks; otherwise it returns buffer[cursor]
times gain and advances the cursor by one. -/
theorem slot_tick_behavior (s : SampleSlot) :
    (s.playing = false ∨ s.loaded = false ∨ s.data = none → slot_tick s = (s, 0)) ∧
    (∀ buf, s.data = some buf → s.playing = true → s.loaded = true →
      ((s.length ≤ s.pos → s.loop = true →
          slot_tick s = ({ s with pos := 1 }, buf.getD 0 0 * s.gain)) ∧
       (s.length ≤ s.pos → s.loop = false →
          slot_tick s = ({ s with playing := false, pos := 0 }, 0) ∧
          (∀ n, (slot_tick (slotStep^[n] { s with playing := false, pos := 0 })).2 = 0)) ∧
       (s.pos < s.length →
          slot_tick s = ({ s with pos := s.pos + 1 }, buf.getD s.pos 0 * s.gain)))) := by
  constructor
  · rintro (h | h | h) <;> simp [slot_tick, h]
  · intro buf hbuf hp hl
    refine ⟨?_, ?_, ?_⟩
    · intro hpos hloop
      simp [slot_tick, hbuf, hp, hl, hpos, hloop]
    · intro hpos hloop
      constructor
      · simp [slot_tick, hbuf, hp, hl, hpos, hloop]
      · intro n
        have hfix : slotStep^[n] { s with playing := false, pos := 0 } =
            { s with playing := false, pos := 0 } := by
          apply Function.iterate_fixed
          simp [slotStep, slot_tick_not_playing]
        rw [hfix, slot_tick_not_playing _ rfl]
    · intro hpos
      simp [slot_tick, hbuf, hp, hl, not_le.mpr hpos]

/-- C4 witness: a loaded looping two-sample slot at its end wraps and plays
buffer[0] * gain = 3 * 2 on that very tick, cursor advancing to 1. -/
theorem slot_tick_behavior_witness :
    slot_tick slotLoopEnd = ({ slotLoopEnd with pos := 1 }, 6) := by
  have h := ((slot_tick_behavior slotLoopEnd).2 [3, 4] rfl rfl rfl).1
    (by norm_num [slotLoopEnd]) rfl
  rw [h]
  norm_num [slotLoopEnd]

/-- C7: the State-Variable Filter's process function returns, by type:
the second integrator value (v2) for LowPass (type 1); the input minus the
resonance coefficient k times the first integrator (v1) minus the second
integrator for HighPass (type 2); the first integrator for BandPass
(type 3); and for Off (type 0) the input unchanged with the internal state
unchanged. -/
theorem svf_process_outputs (f : SVF) (x : ℝ) :
    (f.type = 0 → svf_process f x = (f, x)) ∧
    (f.type = 1 → (svf_process f x).2 = svfV2 f x) ∧
    (f.type = 2 → (svf_process f x).2 = x - (svf_update_coeffs f).k * svfV1 f x - svfV2 f x) ∧
    (f.type = 3 → (svf_process f x).2 = svfV1 f x) := by
  refine ⟨?_, ?_, ?_, ?_⟩ <;> intro h <;>
    simp [svf_process, svfV1, svfV2, h]

/-- C7 witness: concrete filters with current coefficients g = 1, k = 2 and
zeroed integrator state, processing input 4 in each of the four modes. -/
theorem svf_process_outputs_witness :
    svf_process (svfFix 0) 4 = (svfFix 0, 4) ∧
    (svf_process (svfFix 1) 4).2 = 1 ∧
    (svf_process (svfFix 2) 4).2 = 1 ∧
    (svf_process (svfFix 3) 4).2 = 1 := by
  refine ⟨(svf_process_outputs (svfFix 0) 4).1 rfl, ?_, ?_, ?_⟩
  · rw [(svf_process_outputs (svfFix 1) 4).2.1 rfl]
    norm_num [svfV2, svfV1, svf_update_coeffs, svfFix, clampf]
  · rw [(svf_process_outputs (svfFix 2) 4).2.2.1 rfl]
    norm_num [svfV2, svfV1, svf_update_coeffs, svfFix, clampf]
  · rw [(svf_process_outputs (svfFix 3) 4).2.2.2 rfl]
    norm_num [svfV1, svf_update_coeffs, svfFix, clampf]

/-- C8 counterexample: with an out-of-range published pan (pan = 9,
reachable through the external bridge), the right output of channel_stereo
is computed from the clamped pan (giving gain 1), not from the published
pan value as the claim states (which would give sqrt 5). -/
theorem channel_stereo_pan_counterexample :
    (channel_stereo chPanBad 1 0 0).2.2 ≠ (channel_stereo_spec chPanBad 1 0 0).2.2 := by
  have hcode : (channel_stereo chPanBad 1 0 0).2.2 = 1 := by
    simp [channel_stereo, chPanBad, svf_process, svf_init, clampf]
    norm_num
  have hspec : (channel_stereo_spec chPanBad 1 0 0).2.2 = Real.sqrt 5 := by
    simp [channel_stereo_spec, chPanBad, svf_process, svf_init]
    norm_num
  rw [hcode, hspec]
  intro h
  have h5 : (5 : ℝ) = 1 := by
    have := Real.sqrt_eq_one.mp h.symm
    linarith
  norm_num at h5

/-- C8 (amended): the stereo render filters, scales by gain, and pans with
left gain sqrt(0.5 * (1 - p)) and right gain sqrt(0.5 * (1 + p)) where p is
the published pan value clamped to [-1,1] on every call; whenever the
published pan already lies in [-1,1] this agrees exactly with the spec's
formula over the raw published pan. -/
theorem channel_stereo_pan_amended (c : Channel) (mono L R : ℝ) :
    channel_stereo c mono L R =
      ({ c with filt := (svf_process c.filt mono).1 },
       L + (svf_process c.filt mono).2 * c.gain * Real.sqrt (0.5 * (1 - clampf c.pan (-1) 1)),
       R + (svf_process c.filt mono).2 * c.gain * Real.sqrt (0.5 * (1 + clampf c.pan (-1) 1))) ∧
    (-1 ≤ c.pan → c.pan ≤ 1 →
      channel_stereo c mono L R = channel_stereo_spec c mono L R) := by
  constructor
  · simp [channel_stereo]
  · intro h1 h2
    simp [channel_stereo, channel_stereo_spec, clampf_eq_self c.pan (-1) 1 h1 h2]

/-- C8 witness: on the freshly initialized channel (pan 0, in range) the
code render and the spec formula agree. -/
theorem channel_stereo_pan_amended_witness :
    channel_stereo (channel_init 48000) 1 0 0 = channel_stereo_spec (channel_init 48000) 1 0 0 :=
  (channel_stereo_pan_amended (channel_init 48000) 1 0 0).2
    (by norm_num [channel_init]) (by norm_num [channel_init])

/-- C6: SAMPLE n TRIG on a slot whose loaded flag is false replies with an
ERROR line and leaves the engine state (in particular the playing flag and
the cursor) unchanged; on a loaded slot it sets playing := true and
cursor := 0, replies OK, and broadcasts the PLAYING event. -/
theorem sample_trig_validation (st : Engine) (dec : DecodeResult) (s : String) (si : Int)
    (h1 : 1 ≤ si) (h2 : si ≤ 16) (hs : atoi s = si) :
    ((st.slots (slotIdx si)).loaded = false →
       process_tokens ["SAMPLE", s, "TRIG"] dec st = ⟨st, .err (.sampleNotLoaded si), []⟩) ∧
    ((st.slots (slotIdx si)).loaded = true →
       process_tokens ["SAMPLE", s, "TRIG"] dec st =
         ⟨{ st with slots := Function.update st.slots (slotIdx si) { st.slots (slotIdx si) with playing := true, pos := 0 } }, .ok (.sampleTrig si), [.samplePlaying si]⟩) := by
  have hrange : ¬(si < 1 ∨ 16 < si) := by omega
  constructor
  · intro h
    simp [process_tokens, cmdSAMPLE, hs, hrange, h]
  · intro h
    simp [process_tokens, cmdSAMPLE, hs, hrange, h]

/-- C6 witness: on the engine whose slot 1 is loaded, `SAMPLE 1 TRIG`
starts playback from cursor 0; on the fresh engine (slot 2 not loaded)
`SAMPLE 2 TRIG` is rejected with the not-loaded error and no state change. -/
theorem sample_trig_validation_witness :
    process_tokens ["SAMPLE", "2", "TRIG"] .initFail (engine_init 48000) =
      ⟨engine_init 48000, .err (.sampleNotLoaded 2), []⟩ ∧
    process_tokens ["SAMPLE", "1", "TRIG"] .initFail sampleLoadSt0 =
      ⟨{ sampleLoadSt0 with slots := Function.update sampleLoadSt0.slots (slotIdx 1) { sampleLoadSt0.slots (slotIdx 1) with playing := true, pos := 0 } }, .ok (.sampleTrig 1), [.samplePlaying 1]⟩ := by
  constructor
  · exact (sample_trig_validation (engine_init 48000) .initFail "2" 2 (by norm_num)
      (by norm_num) (by decide)).1 rfl
  · exact (sample_trig_validation sampleLoadSt0 .initFail "1" 1 (by norm_num)
      (by norm_num) (by decide)).2 (by simp [sampleLoadSt0, slotLoadedEx])

theorem intercalate_singleton (p : String) : String.intercalate " " [p] = p := rfl

/-- C2 counterexample: loading a file whose decode fails into a slot that
already held a loaded buffer replies with the coded ERROR, but the slot's
prior state is NOT left untouched: the prior buffer is freed first, so the
loaded flag drops from true to false. -/
theorem sample_load_failure_counterexample :
    (process_tokens ["SAMPLE", "1", "LOAD", "/missing.wav"] .initFail sampleLoadSt0).resp =
      .err (.loadFailed "/missing.wav" (-1)) ∧
    (sampleLoadSt0.slots (slotIdx 1)).loaded = true ∧
    ((process_tokens ["SAMPLE", "1", "LOAD", "/missing.wav"] .initFail sampleLoadSt0).engine.slots (slotIdx 1)).loaded = false := by
  have ha : atoi "1" = 1 := by decide
  have hlen : ¬(1023 ≤ "/missing.wav".length) := by decide
  refine ⟨?_, ?_, ?_⟩
  · simp [process_tokens, cmdSAMPLE, ha, hlen, slot_load_path, intercalate_singleton]
  · simp [sampleLoadSt0, slotLoadedEx]
  · simp [process_tokens, cmdSAMPLE, ha, hlen, slot_load_path, intercalate_singleton, slot_free]

/-- C2 (amended): when a SAMPLE n LOAD decode fails, the reply is an ERROR
carrying the failure code, and the slot is left empty (buffer freed, loaded
and playing false) rather than with its prior contents, which are discarded
at the start of the load; the loaded flag is published true only together
with a fully built buffer whose length field matches it, and any failing
load leaves the slot exactly in the freed state. -/
theorem sample_load_failure_amended (st : Engine) (s p : String) (si : Int)
    (h1 : 1 ≤ si) (h2 : si ≤ 16) (hs : atoi s = si) (hp : p.length ≤ 1022) :
    (process_tokens ["SAMPLE", s, "LOAD", p] .initFail st =
       ⟨{ st with slots := Function.update st.slots (slotIdx si) (slot_free (st.slots (slotIdx si))) }, .err (.loadFailed p (-1)), []⟩) ∧
    (process_tokens ["SAMPLE", s, "LOAD", p] .lengthFail st =
       ⟨{ st with slots := Function.update st.slots (slotIdx si) (slot_free (st.slots (slotIdx si))) }, .err (.loadFailed p (-2)), []⟩) ∧
    (∀ (sl : SampleSlot) (d : DecodeResult),
       ((slot_load_path sl d).1.loaded = true →
          ∃ buf, (slot_load_path sl d).1.data = some buf ∧
                 (slot_load_path sl d).1.length = buf.length) ∧
       ((slot_load_path sl d).2 ≠ 0 → (slot_load_path sl d).1 = slot_free sl)) := by
  have hrange : ¬(si < 1 ∨ 16 < si) := by omega
  refine ⟨?_, ?_, ?_⟩
  · simp only [process_tokens, cmdSAMPLE, intercalate_singleton]
    simp [hs, hrange, slot_load_path, Nat.not_le.mpr (by omega : p.length < 1023)]
  · simp only [process_tokens, cmdSAMPLE, intercalate_singleton]
    simp [hs, hrange, slot_load_path, slot_free, Nat.not_le.mpr (by omega : p.length < 1023)]
  · intro sl d
    constructor
    · intro h
      cases d with
      | initFail => simp [slot_load_path, slot_free] at h
      | lengthFail => simp [slot_load_path, slot_free] at h
      | ok ch frames =>
          refine ⟨frames.map (fun fr => fr.sum / (ch : ℝ)), ?_, ?_⟩ <;>
            simp [slot_load_path]
    · intro h
      cases d with
      | initFail => simp [slot_load_path]
      | lengthFail => simp [slot_load_path, slot_free]
      | ok ch frames => simp [slot_load_path] at h

/-- C2 witness: a failing decode on slot 1 of the fresh engine replies the
coded ERROR and leaves the slot in the freed state. -/
theorem sample_load_failure_amended_witness :
    process_tokens ["SAMPLE", "1", "LOAD", "/a"] .initFail (engine_init 48000) =
      ⟨{ engine_init 48000 with slots := Function.update (engine_init 48000).slots (slotIdx 1) (slot_free ((engine_init 48000).slots (slotIdx 1))) }, .err (.loadFailed "/a" (-1)), []⟩ :=
  (sample_load_failure_amended (engine_init 48000) "1" "/a" 1 (by norm_num) (by norm_num)
    (by decide) (by decide)).1

/-- C10: spikes injected while a voice is off are neither drained nor
discarded: voice_tick of an off voice returns 0 with the whole state
(including the pending-spike counter) untouched; each VOICE n SPIKE command
adds one to the counter whatever the on flag; and a tick of an on voice
with a positive pending count takes-and-zeroes the whole count, adding it
to both decay registers A and B before the decay multiply. -/
theorem voice_spike_pending (v : Voice) :
    (v.onFlag = false → voice_tick v = (v, 0)) ∧
    (∀ (st : Engine) (dec : DecodeResult) (s : String) (vi : Int),
       1 ≤ vi → vi ≤ 8 → atoi s = vi →
       process_tokens ["VOICE", s, "SPIKE"] dec st =
         ⟨{ st with voices := Function.update st.voices (voiceIdx vi) { st.voices (voiceIdx vi) with spikes := (st.voices (voiceIdx vi)).spikes + 1 } }, .ok (.voiceSpike vi), []⟩) ∧
    (v.onFlag = true → 0 < v.spikes →
       (voice_tick v).1.spikes = 0 ∧
       (voice_tick v).1.Astate = (v.Astate + (v.spikes : ℝ)) * voiceDecayA v ∧
       (voice_tick v).1.Bstate = (v.Bstate + (v.spikes : ℝ)) * voiceDecayB v) := by
  refine ⟨?_, ?_, ?_⟩
  · intro h
    simp [voice_tick, h]
  · intro st dec s vi hv1 hv2 hs
    have hrange : ¬(vi < 1 ∨ 8 < vi) := by omega
    simp [process_tokens, cmdVOICE, hs, hrange]
  · intro hon hsp
    refine ⟨?_, ?_, ?_⟩ <;> simp [voice_tick, hon, hsp]

/-- C10 witness: the fresh (off) voice ticks to 0 with state untouched;
`VOICE 1 SPIKE` on the fresh engine increments the counter of voice 1; and
the on voice with one pending spike drains it to zero on its tick. -/
theorem voice_spike_pending_witness :
    voice_tick (voice_init 48000) = (voice_init 48000, 0) ∧
    process_tokens ["VOICE", "1", "SPIKE"] .initFail (engine_init 48000) =
      ⟨{ engine_init 48000 with voices := Function.update (engine_init 48000).voices (voiceIdx 1) { (engine_init 48000).voices (voiceIdx 1) with spikes := ((engine_init 48000).voices (voiceIdx 1)).spikes + 1 } }, .ok (.voiceSpike 1), []⟩ ∧
    (voice_tick voiceSpiked).1.spikes = 0 :=
  ⟨(voice_spike_pending (voice_init 48000)).1 rfl,
   (voice_spike_pending (voice_init 48000)).2.1 (engine_init 48000) .initFail "1" 1
     (by norm_num) (by norm_num) (by decide),
   ((voice_spike_pending voiceSpiked).2.2 rfl (by norm_num [voiceSpiked])).1⟩

theorem filter_map_single {l : List String} {p : String} (e : Event)
    (hnd : l.Nodup) (hp : p ∈ l) :
    (l.map (fun q => (q, e))).filter (fun pe => pe.1 == p) = [(p, e)] := by
  induction l with
  | nil => simp at hp
  | cons a as ih =>
      have hnot : a ∉ as := (List.nodup_cons.mp hnd).1
      rcases List.mem_cons.mp hp with h | h
      · simp only [List.map_cons, List.filter_cons]
        rw [if_pos (by simp [h])]
        have hrest : (as.map (fun q => (q, e))).filter (fun pe => pe.1 == p) = [] := by
          apply List.filter_eq_nil_iff.mpr
          intro pe hpe
          rcases List.mem_map.mp hpe with ⟨q, hq, rfl⟩
          simp only [beq_iff_eq]
          intro hqp
          rw [hqp, h] at hq
          exact hnot hq
        rw [hrest, h]
      · have hne : a ≠ p := fun he => hnot (he ▸ h)
        simp only [List.map_cons, List.filter_cons]
        rw [if_neg (by simp [hne])]
        exact ih (List.nodup_cons.mp hnd).2 h

/-- C9: the command `CH 2 GAIN 0.5` stores exactly 0.5 into channel 2's
gain (a subsequent read yields exactly 0.5), changes nothing else, replies
exactly once with the OK line, and broadcasts exactly one
`EVENT CHANNEL 2 GAIN 0.500` line, delivered once to each endpoint
subscribed at that time. -/
theorem ch_gain_roundtrip (st : Engine) (dec : DecodeResult) :
    (process_command "CH 2 GAIN 0.5" dec st).engine =
      { st with ch := Function.update st.ch (chIdx 2) { st.ch (chIdx 2) with gain := 0.5 } } ∧
    ((process_command "CH 2 GAIN 0.5" dec st).engine.ch (chIdx 2)).gain = 0.5 ∧
    (process_command "CH 2 GAIN 0.5" dec st).resp = .ok (.chGain 2 0.5) ∧
    (process_command "CH 2 GAIN 0.5" dec st).events = [.channelGain 2 0.5] ∧
    (st.subs.Nodup → ∀ p ∈ st.subs,
       (deliveries st.subs (process_command "CH 2 GAIN 0.5" dec st).events).filter
         (fun pe => pe.1 == p) = [(p, Event.channelGain 2 0.5)]) := by
  have htok : tokenize "CH 2 GAIN 0.5" = ["CH", "2", "GAIN", "0.5"] := by decide
  have ha : atoi "2" = 2 := by decide
  have hf : atof "0.5" = 0.5 := by
    have h1 : atofNum "0.5" = 5 := by decide
    have h2 : atofFracLen "0.5" = 1 := by decide
    rw [atof, h1, h2]
    norm_num
  have hcl : clampf (atof "0.5") 0 10 = 0.5 := by
    rw [hf]
    exact clampf_eq_self _ _ _ (by norm_num) (by norm_num)
  have hmain : process_command "CH 2 GAIN 0.5" dec st =
      ⟨{ st with ch := Function.update st.ch (chIdx 2) { st.ch (chIdx 2) with gain := 0.5 } },
       .ok (.chGain 2 0.5), [.channelGain 2 0.5]⟩ := by
    rw [process_command, htok]
    simp [process_tokens, cmdCH, ha, hcl]
  refine ⟨?_, ?_, ?_, ?_, ?_⟩
  · rw [hmain]
  · rw [hmain]
    simp
  · rw [hmain]
  · rw [hmain]
  · intro hnd p hp
    rw [hmain]
    simp only [deliveries, List.flatMap_cons, List.flatMap_nil, List.append_nil]
    exact filter_map_single _ hnd hp

/-- C9 witness: with two subscribed endpoints "a" and "b", endpoint "a"
receives the gain event exactly once. -/
theorem ch_gain_roundtrip_witness :
    (deliveries ["a", "b"] (process_command "CH 2 GAIN 0.5" DecodeResult.initFail { engine_init 48000 with subs := ["a", "b"] }).events).filter
      (fun pe => pe.1 == "a") = [("a", Event.channelGain 2 0.5)] :=
  (ch_gain_roundtrip { engine_init 48000 with subs := ["a", "b"] } .initFail).2.2.2.2
    (by decide) "a" (by decide)

/-- C3 counterexample: with the subscriber list already full (32 entries),
SUBSCRIBE of a new endpoint still replies `OK Subscribed` — not the ERROR
the claim states — while the list stays unchanged (the refusal is only
logged to stderr). -/
theorem subscribe_full_counterexample :
    32 ≤ subsFull.length ∧ "/tmp/new" ∉ subsFull ∧
    (process_tokens ["SUBSCRIBE", "/tmp/new"] .initFail { engine_init 48000 with subs := subsFull }).resp = .ok .subscribed ∧
    (process_tokens ["SUBSCRIBE", "/tmp/new"] .initFail { engine_init 48000 with subs := subsFull }).engine.subs = subsFull := by
  have hadd : srv_add_subscriber subsFull "/tmp/new" = subsFull := by decide
  refine ⟨by decide, by decide, ?_, ?_⟩ <;>
    simp [process_tokens, cmdSUBSCRIBE, hadd]

/-- C3 (amended): when the subscriber list is full a SUBSCRIBE command
leaves the list unchanged but the issuer still receives the OK reply (the
capacity failure is only logged, never reported as an ERROR reply);
SUBSCRIBE deduplicates, so subscribing an endpoint twice leaves exactly
one entry for it. -/
theorem subscribe_amended :
    (∀ (subs : List String) (p : String), 32 ≤ subs.length → srv_add_subscriber subs p = subs) ∧
    (∀ (subs : List String) (p : String), p ∈ subs → srv_add_subscriber subs p = subs) ∧
    (∀ (subs : List String) (p : String), p ∉ subs → subs.length < 32 →
       (srv_add_subscriber subs p).count p = 1 ∧
       (srv_add_subscriber (srv_add_subscriber subs p) p).count p = 1) ∧
    (∀ (st : Engine) (dec : DecodeResult) (p : String) (rest : List String),
       process_tokens ("SUBSCRIBE" :: p :: rest) dec st =
         ⟨{ st with subs := srv_add_subscriber st.subs p }, .ok .subscribed, []⟩) := by
  refine ⟨?_, ?_, ?_, ?_⟩
  · intro subs p h
    simp [srv_add_subscriber, h]
  · intro subs p h
    unfold srv_add_subscriber
    split_ifs <;> simp [h] at *
  · intro subs p hmem hlen
    have hadd : srv_add_subscriber subs p = subs ++ [p] := by
      simp [srv_add_subscriber, Nat.not_le.mpr hlen, hmem]
    have hcount : (subs ++ [p]).count p = 1 := by
      rw [List.count_append, List.count_eq_zero.mpr hmem]
      simp
    constructor
    · rw [hadd, hcount]
    · rw [hadd]
      by_cases h32 : 32 ≤ (subs ++ [p]).length
      · simp [srv_add_subscriber, h32, hcount]
      · have hmem2 : p ∈ subs ++ [p] := by simp
        simp [srv_add_subscriber, h32, hmem2, hcount]
  · intro st dec p rest
    simp [process_tokens, cmdSUBSCRIBE]

/-- C3 witness: subscribing "y" twice to a one-element list leaves exactly
one entry for "y". -/
theorem subscribe_amended_witness :
    (srv_add_subscriber ["x"] "y").count "y" = 1 ∧
    (srv_add_subscriber (srv_add_subscriber ["x"] "y") "y").count "y" = 1 :=
  subscribe_amended.2.2.1 ["x"] "y" (by decide) (by decide)

/-- C1 counterexample: the local interpreter's FILTER write floor-clamps Q
only, so `CH 1 FILTER 1 1000 100` stores Q = 100, outside the claimed
stable range [0.1, 20]; and the external bridge stores its mapped pan
without clamping, so a PAN_1 message with value 2 stores pan = 3, outside
[-1, 1]. -/
theorem param_clamp_counterexample :
    20 < ((process_tokens ["CH", "1", "FILTER", "1", "1000", "100"] .initFail (engine_init 48000)).engine.ch (chIdx 1)).filt.q ∧
    1 < ((osc_handle_mapped (engine_init 48000) "PAN_1" 2).ch 0).pan := by
  constructor
  · have ha : atoi "1" = 1 := by decide
    have hq : atof "100" = 100 := by
      have h1 : atofNum "100" = 100 := by decide
      have h2 : atofFracLen "100" = 0 := by decide
      rw [atof, h1, h2]
      norm_num
    have hst : ((process_tokens ["CH", "1", "FILTER", "1", "1000", "100"] .initFail (engine_init 48000)).engine.ch (chIdx 1)).filt.q = max 0.1 (atof "100") := by
      simp [process_tokens, cmdCH, ha]
    rw [hst, hq]
    norm_num
  · have hst : ((osc_handle_mapped (engine_init 48000) "PAN_1" 2).ch 0).pan = 2 * 2 - 1 := by
      simp [osc_handle_mapped]
    rw [hst]
    norm_num

/-- C1 (amended): the local command interpreter stores gain clamped to
[0, 10] and pan clamped to [-1, 1] for every input value; cutoff is
floor-clamped to at least 20 Hz and Q is floor-clamped to at least 0.1 at
write time, the upper Q bound of 20 being applied only when the filter
computes its coefficients; the external protocol bridge stores its mapped
values without clamping (gain = value, pan = 2*value - 1,
cutoff = 100 + 7900*value), which lie in the documented ranges whenever
the incoming value is within its normalized [0, 1] domain. -/
theorem param_clamp_amended :
    (∀ (st : Engine) (dec : DecodeResult) (t1 g : String) (n : Int),
       atoi t1 = n → 1 ≤ n → n ≤ 4 →
       ((process_tokens ["CH", t1, "GAIN", g] dec st).engine.ch (chIdx n)).gain
         = clampf (atof g) 0 10 ∧
       0 ≤ ((process_tokens ["CH", t1, "GAIN", g] dec st).engine.ch (chIdx n)).gain ∧
       ((process_tokens ["CH", t1, "GAIN", g] dec st).engine.ch (chIdx n)).gain ≤ 10) ∧
    (∀ (st : Engine) (dec : DecodeResult) (t1 p : String) (n : Int),
       atoi t1 = n → 1 ≤ n → n ≤ 4 →
       ((process_tokens ["CH", t1, "PAN", p] dec st).engine.ch (chIdx n)).pan
         = clampf (atof p) (-1) 1 ∧
       -1 ≤ ((process_tokens ["CH", t1, "PAN", p] dec st).engine.ch (chIdx n)).pan ∧
       ((process_tokens ["CH", t1, "PAN", p] dec st).engine.ch (chIdx n)).pan ≤ 1) ∧
    (∀ (st : Engine) (dec : DecodeResult) (t1 a b c : String) (n : Int),
       atoi t1 = n → 1 ≤ n → n ≤ 4 →
       ((process_tokens ["CH", t1, "FILTER", a, b, c] dec st).engine.ch (chIdx n)).filt.cutoff
         = max 20 (atof b) ∧
       20 ≤ ((process_tokens ["CH", t1, "FILTER", a, b, c] dec st).engine.ch (chIdx n)).filt.cutoff ∧
       ((process_tokens ["CH", t1, "FILTER", a, b, c] dec st).engine.ch (chIdx n)).filt.q
         = max 0.1 (atof c) ∧
       0.1 ≤ ((process_tokens ["CH", t1, "FILTER", a, b, c] dec st).engine.ch (chIdx n)).filt.q) ∧
    (∀ f : SVF, svf_update_coeffs f = f ∨
       ((svf_update_coeffs f).k = 1 / clampf f.q 0.1 20 ∧
        0.1 ≤ clampf f.q 0.1 20 ∧ clampf f.q 0.1 20 ≤ 20)) ∧
    (∀ (st : Engine) (v : ℝ), 0 ≤ v → v ≤ 1 →
       ((osc_handle_mapped st "VOLUME_1" v).ch 0).gain = v ∧
       0 ≤ ((osc_handle_mapped st "VOLUME_1" v).ch 0).gain ∧
       ((osc_handle_mapped st "VOLUME_1" v).ch 0).gain ≤ 10 ∧
       ((osc_handle_mapped st "PAN_1" v).ch 0).pan = v * 2 - 1 ∧
       -1 ≤ ((osc_handle_mapped st "PAN_1" v).ch 0).pan ∧
       ((osc_handle_mapped st "PAN_1" v).ch 0).pan ≤ 1 ∧
       ((osc_handle_mapped st "FILTER_CUTOFF" v).ch 0).filt.cutoff = 100 + v * 7900 ∧
       20 ≤ ((osc_handle_mapped st "FILTER_CUTOFF" v).ch 0).filt.cutoff) := by
  refine ⟨?_, ?_, ?_, ?_, ?_⟩
  · intro st dec t1 g n hn h1 h4
    have hrange : ¬(atoi t1 < 1 ∨ 4 < atoi t1) := by omega
    have hmain : ((process_tokens ["CH", t1, "GAIN", g] dec st).engine.ch (chIdx (atoi t1))).gain
        = clampf (atof g) 0 10 := by
      simp [process_tokens, cmdCH, hrange]
    rw [hn] at hmain
    exact ⟨hmain, hmain ▸ le_clampf _ _ _ (by norm_num), hmain ▸ clampf_le _ _ _ (by norm_num)⟩
  · intro st dec t1 p n hn h1 h4
    have hrange : ¬(atoi t1 < 1 ∨ 4 < atoi t1) := by omega
    have hmain : ((process_tokens ["CH", t1, "PAN", p] dec st).engine.ch (chIdx (atoi t1))).pan
        = clampf (atof p) (-1) 1 := by
      simp [process_tokens, cmdCH, hrange]
    rw [hn] at hmain
    exact ⟨hmain, hmain ▸ le_clampf _ _ _ (by norm_num), hmain ▸ clampf_le _ _ _ (by norm_num)⟩
  · intro st dec t1 a b c n hn h1 h4
    have hrange : ¬(atoi t1 < 1 ∨ 4 < atoi t1) := by omega
    have hcut : ((process_tokens ["CH", t1, "FILTER", a, b, c] dec st).engine.ch (chIdx (atoi t1))).filt.cutoff
        = max 20 (atof b) := by
      simp [process_tokens, cmdCH, hrange]
    have hq : ((process_tokens ["CH", t1, "FILTER", a, b, c] dec st).engine.ch (chIdx (atoi t1))).filt.q
        = max 0.1 (atof c) := by
      simp [process_tokens, cmdCH, hrange]
    rw [hn] at hcut hq
    exact ⟨hcut, hcut ▸ le_max_left _ _, hq, hq ▸ le_max_left _ _⟩
  · intro f
    by_cases hchg : f.cutoff ≠ f.prev_cutoff ∨ clampf f.q 0.1 20 ≠ f.prev_q
    · right
      refine ⟨?_, le_clampf _ _ _ (by norm_num), clampf_le _ _ _ (by norm_num)⟩
      simp [svf_update_coeffs, hchg]
    · left
      simp [svf_update_coeffs, hchg]
  · intro st v h0 h1
    refine ⟨?_, ?_, ?_, ?_, ?_, ?_, ?_, ?_⟩ <;>
      simp [osc_handle_mapped] <;> linarith

/-- C1 witness: the out-of-range input `CH 1 GAIN 50` is stored clamped to
at most 10, and a maximal in-domain PAN_1 message stores a pan within
[-1, 1]. -/
theorem param_clamp_amended_witness :
    ((process_tokens ["CH", "1", "GAIN", "50"] .initFail (engine_init 48000)).engine.ch (chIdx 1)).gain ≤ 10 ∧
    ((osc_handle_mapped (engine_init 48000) "PAN_1" 1).ch 0).pan ≤ 1 :=
  ⟨(param_clamp_amended.1 (engine_init 48000) .initFail "1" "50" 1 (by decide) (by norm_num)
      (by norm_num)).2.2,
   (param_clamp_amended.2.2.2.2 (engine_init 48000) 1 (by norm_num) (by norm_num)).2.2.2.2.2.1⟩

set_option maxHeartbeats 1600000 in
/-- C5 counterexample: for the voice with tauA = 1 < tauB = 2 at sample
rate 2 and one pending spike, the duty-cycle deviation from dutyBias at the
second tick is strictly larger than at the first tick (the bi-exponential
difference rises before it decays), refuting the claimed per-tick monotone
decay. -/
theorem voice_duty_monotone_counterexample :
    voiceSpiked.tauA < voiceSpiked.tauB ∧
    |voice_tick_duty (voiceStep voiceSpiked) - voiceSpiked.dutyBias| >
      |voice_tick_duty voiceSpiked - voiceSpiked.dutyBias| := by
  have hmax1 : max (0.0001 : ℝ) 1 = 1 := max_eq_right (by norm_num)
  have hmax2 : max (0.0001 : ℝ) 2 = 2 := max_eq_right (by norm_num)
  have p_on : voiceSpiked.onFlag = true := rfl
  have p_sp : voiceSpiked.spikes = 1 := rfl
  have p_A : voiceSpiked.Astate = 0 := rfl
  have p_B : voiceSpiked.Bstate = 0 := rfl
  have p_bias : voiceSpiked.dutyBias = 1 / 2 := rfl
  have p_tauA : voiceSpiked.tauA = 1 := rfl
  have p_tauB : voiceSpiked.tauB = 2 := rfl
  have p_sr : voiceSpiked.sr = 2 := rfl
  set a := Real.exp (-1 / 2 : ℝ) with ha_def
  set b := Real.exp (-1 / 4 : ℝ) with hb_def
  have hda : voiceDecayA voiceSpiked = a := by
    rw [voiceDecayA, p_tauA, p_sr, hmax1, ha_def]
    norm_num
  have hdb : voiceDecayB voiceSpiked = b := by
    rw [voiceDecayB, p_tauB, p_sr, hmax2, hb_def]
    norm_num
  have ha_pos : (0 : ℝ) < a := Real.exp_pos _
  have hb_pos : (0 : ℝ) < b := Real.exp_pos _
  have hb1 : b < 1 := by
    rw [hb_def, Real.exp_lt_one_iff]
    norm_num
  have hab : a < b := by
    rw [ha_def, hb_def]
    exact Real.exp_lt_exp.mpr (by norm_num)
  have ha_half : (1 : ℝ) / 2 ≤ a := by
    have := Real.add_one_le_exp (-1 / 2 : ℝ)
    rw [ha_def]
    linarith
  have hb34 : (3 : ℝ) / 4 < b := by
    have := Real.add_one_lt_exp (show (-1 / 4 : ℝ) ≠ 0 by norm_num)
    rw [hb_def]
    linarith
  have e1 : voice_tick_duty voiceSpiked = clampf (1 / 2 + 0.25 * (a - b)) 0.01 0.99 := by
    simp [voice_tick_duty, p_sp, p_A, p_B, p_bias, hda, hdb]
  have hfA : (voiceStep voiceSpiked).Astate = a := by
    simp [voiceStep, voice_tick, p_on, p_sp, p_A, hda]
  have hfB : (voiceStep voiceSpiked).Bstate = b := by
    simp [voiceStep, voice_tick, p_on, p_sp, p_B, hdb]
  have hfs : (voiceStep voiceSpiked).spikes = 0 := by
    simp [voiceStep, voice_tick, p_on]
  have hfbias : (voiceStep voiceSpiked).dutyBias = 1 / 2 := by
    simp [voiceStep, voice_tick, p_on, p_bias]
  have hfta : (voiceStep voiceSpiked).tauA = 1 := by
    simp [voiceStep, voice_tick, p_on, p_tauA]
  have hftb : (voiceStep voiceSpiked).tauB = 2 := by
    simp [voiceStep, voice_tick, p_on, p_tauB]
  have hfsr : (voiceStep voiceSpiked).sr = 2 := by
    simp [voiceStep, voice_tick, p_on, p_sr]
  have hdA2 : voiceDecayA (voiceStep voiceSpiked) = a := by
    rw [voiceDecayA, hfta, hfsr, hmax1, ha_def]
    norm_num
  have hdB2 : voiceDecayB (voiceStep voiceSpiked) = b := by
    rw [voiceDecayB, hftb, hfsr, hmax2, hb_def]
    norm_num
  have e2 : voice_tick_duty (voiceStep voiceSpiked) =
      clampf (1 / 2 + 0.25 * (a * a - b * b)) 0.01 0.99 := by
    simp [voice_tick_duty, hfs, hfA, hfB, hfbias, hdA2, hdB2]
  have hc1 : clampf (1 / 2 + 0.25 * (a - b)) 0.01 0.99 = 1 / 2 + 0.25 * (a - b) :=
    clampf_eq_self _ _ _ (by nlinarith) (by nlinarith)
  have hc2 : clampf (1 / 2 + 0.25 * (a * a - b * b)) 0.01 0.99 =
      1 / 2 + 0.25 * (a * a - b * b) :=
    clampf_eq_self _ _ _ (by nlinarith) (by nlinarith)
  rw [p_bias, e1, e2, hc1, hc2]
  have habs1 : |1 / 2 + 0.25 * (a - b) - 1 / 2| = 0.25 * (b - a) := by
    rw [show (1 / 2 + 0.25 * (a - b) - 1 / 2 : ℝ) = -(0.25 * (b - a)) by ring, abs_neg,
        abs_of_nonneg (by linarith)]
  have habs2 : |1 / 2 + 0.25 * (a * a - b * b) - 1 / 2| = 0.25 * (b * b - a * a) := by
    rw [show (1 / 2 + 0.25 * (a * a - b * b) - 1 / 2 : ℝ) = -(0.25 * (b * b - a * a)) by ring,
        abs_neg, abs_of_nonneg (by nlinarith)]
  rw [habs1, habs2]
  constructor
  · rw [p_tauA, p_tauB]
    norm_num
  · have hkey : (0 : ℝ) < (b - a) * (a + b - 1) := mul_pos (by linarith) (by linarith)
    nlinarith [hkey]

/-- C5 (amended): for a voice with a single pending spike injected at rest
(decay registers zero), positive sample rate, tauA < tauB, and a duty bias
inside the clamp range, the duty-cycle deviation from dutyBias is a
transient: it tends to 0 as the number of ticks grows (though it need not
shrink on every single tick; the bi-exponential difference first rises and
then decays). -/
theorem voice_duty_decay_amended (v0 : Voice)
    (hon : v0.onFlag = true) (hsp : v0.spikes = 1)
    (hA0 : v0.Astate = 0) (hB0 : v0.Bstate = 0)
    (hsr : 0 < v0.sr) (htab : v0.tauA < v0.tauB)
    (hb1 : 0.01 ≤ v0.dutyBias) (hb2 : v0.dutyBias ≤ 0.99) :
    Filter.Tendsto (fun n => |voice_tick_duty (voiceStep^[n] v0) - v0.dutyBias|)
      Filter.atTop (nhds 0) := by
  have hdapos : 0 < voiceDecayA v0 := Real.exp_pos _
  have hdbpos : 0 < voiceDecayB v0 := Real.exp_pos _
  have hda1 : voiceDecayA v0 < 1 := by
    rw [voiceDecayA, Real.exp_lt_one_iff]
    apply div_neg_of_neg_of_pos (by norm_num)
    exact mul_pos (lt_of_lt_of_le (by norm_num) (le_max_left _ _)) hsr
  have hdb1 : voiceDecayB v0 < 1 := by
    rw [voiceDecayB, Real.exp_lt_one_iff]
    apply div_neg_of_neg_of_pos (by norm_num)
    exact mul_pos (lt_of_lt_of_le (by norm_num) (le_max_left _ _)) hsr
  have key : ∀ n : ℕ, 1 ≤ n →
      (voiceStep^[n] v0).onFlag = true ∧
      (voiceStep^[n] v0).spikes = 0 ∧
      (voiceStep^[n] v0).tauA = v0.tauA ∧
      (voiceStep^[n] v0).tauB = v0.tauB ∧
      (voiceStep^[n] v0).sr = v0.sr ∧
      (voiceStep^[n] v0).dutyBias = v0.dutyBias ∧
      (voiceStep^[n] v0).Astate = voiceDecayA v0 ^ n ∧
      (voiceStep^[n] v0).Bstate = voiceDecayB v0 ^ n := by
    intro n hn
    induction n with
    | zero => omega
    | succ m ih =>
        rcases Nat.eq_zero_or_pos m with rfl | hm
        · rw [Function.iterate_one]
          refine ⟨?_, ?_, ?_, ?_, ?_, ?_, ?_, ?_⟩ <;>
            simp [voiceStep, voice_tick, hon, hsp, hA0, hB0]
        · rw [Function.iterate_succ_apply']
          obtain ⟨hon', hsp', hta', htb', hsr', hbias', hA', hB'⟩ := ih hm
          have hdA : voiceDecayA (voiceStep^[m] v0) = voiceDecayA v0 := by
            rw [voiceDecayA, voiceDecayA, hta', hsr']
          have hdB : voiceDecayB (voiceStep^[m] v0) = voiceDecayB v0 := by
            rw [voiceDecayB, voiceDecayB, htb', hsr']
          refine ⟨?_, ?_, ?_, ?_, ?_, ?_, ?_, ?_⟩ <;>
            simp [voiceStep, voice_tick, hon', hsp', hta', htb', hsr', hbias', hA', hB',
                  hdA, hdB, pow_succ]
  have duty_eq : ∀ n : ℕ, voice_tick_duty (voiceStep^[n] v0) =
      clampf (v0.dutyBias + 0.25 * (voiceDecayA v0 ^ (n + 1) - voiceDecayB v0 ^ (n + 1)))
        0.01 0.99 := by
    intro n
    rcases Nat.eq_zero_or_pos n with rfl | hn
    · simp [voice_tick_duty, hsp, hA0, hB0]
    · obtain ⟨hon', hsp', hta', htb', hsr', hbias', hA', hB'⟩ := key n hn
      have hdA : voiceDecayA (voiceStep^[n] v0) = voiceDecayA v0 := by
        rw [voiceDecayA, voiceDecayA, hta', hsr']
      have hdB : voiceDecayB (voiceStep^[n] v0) = voiceDecayB v0 := by
        rw [voiceDecayB, voiceDecayB, htb', hsr']
      simp [voice_tick_duty, hsp', hbias', hA', hB', hdA, hdB, pow_succ]
  apply squeeze_zero (g := fun n => 0.25 * (voiceDecayA v0 ^ (n + 1) + voiceDecayB v0 ^ (n + 1)))
    (fun n => abs_nonneg _)
  · intro n
    rw [duty_eq n]
    calc |clampf (v0.dutyBias + 0.25 * (voiceDecayA v0 ^ (n + 1) - voiceDecayB v0 ^ (n + 1))) 0.01 0.99 - v0.dutyBias|
        ≤ |0.25 * (voiceDecayA v0 ^ (n + 1) - voiceDecayB v0 ^ (n + 1))| :=
          abs_clampf_sub_le _ _ _ _ hb1 hb2
      _ = 0.25 * |voiceDecayA v0 ^ (n + 1) - voiceDecayB v0 ^ (n + 1)| := by
          rw [abs_mul]
          norm_num
      _ ≤ 0.25 * (voiceDecayA v0 ^ (n + 1) + voiceDecayB v0 ^ (n + 1)) := by
          have h1 : |voiceDecayA v0 ^ (n + 1) - voiceDecayB v0 ^ (n + 1)| ≤
              |voiceDecayA v0 ^ (n + 1)| + |voiceDecayB v0 ^ (n + 1)| := abs_sub _ _
          rw [abs_of_nonneg (pow_nonneg hdapos.le _),
              abs_of_nonneg (pow_nonneg hdbpos.le _)] at h1
          linarith
  · have tA : Filter.Tendsto (fun n : ℕ => voiceDecayA v0 ^ (n + 1)) Filter.atTop (nhds 0) :=
      (tendsto_pow_atTop_nhds_zero_of_lt_one hdapos.le hda1).comp (Filter.tendsto_add_atTop_nat 1)
    have tB : Filter.Tendsto (fun n : ℕ => voiceDecayB v0 ^ (n + 1)) Filter.atTop (nhds 0) :=
      (tendsto_pow_atTop_nhds_zero_of_lt_one hdbpos.le hdb1).comp (Filter.tendsto_add_atTop_nat 1)
    have := (tA.add tB).const_mul (0.25 : ℝ)
    simpa using this

/-- C5 witness: the concrete spiked voice (tauA = 1 < tauB = 2, sample rate
2, bias one half) has its duty deviation tend to 0. -/
theorem voice_duty_decay_amended_witness :
    Filter.Tendsto (fun n => |voice_tick_duty (voiceStep^[n] voiceSpiked) - voiceSpiked.dutyBias|)
      Filter.atTop (nhds 0) :=
  voice_duty_decay_amended voiceSpiked rfl rfl rfl rfl (by norm_num [voiceSpiked])
    (by norm_num [voiceSpiked]) (by norm_num [voiceSpiked]) (by norm_num [voiceSpiked])
